import Mathlib

/-!
# cmdctrl: process control and the `SimpleStart` dispatcher

A shallow embedding of `cmdctrl.go`.  The package is a thin layer over
collaborators that live outside the repository (`flag`, `flagenv`,
`flagconfig`, `pidfile`, `stdfd`, `devrestarter`, `os`).  Their results are
read from an environment `Env`; every call into them, every write to the
standard streams and the final `os.Exit` are recorded, in program order, in
the `Run` value a function produces.

`flag.Parse` runs on the default flag set, whose error handling is
`flag.ExitOnError`: a command line it rejects, and a request for help, end the
process inside the call, after the usage function `SimpleStart` installed has
run.  Both paths are part of the embedding.  `flagenv.Parse` and
`flagconfig.Parse` are taken to return.

The package refers to `syscall.SIGUSR2` and so builds on Unix only, where
`os.FindProcess` always succeeds; `sendSignal` nevertheless checks its error,
and so does the embedding.  Statements that depend on the lookup succeeding
say so through `UnixFindProcess`.
-/

namespace Cmdctrl

/-- A non-nil Go `error` value, identified by the text `Error()` returns. -/
structure GoError where
  msg : String
  deriving DecidableEq, Repr

/-- The three signals the package sends (`syscall.SIGTERM`, `syscall.SIGUSR2`,
`syscall.SIGKILL`). -/
inductive Signal where
  | SIGTERM
  | SIGUSR2
  | SIGKILL
  deriving DecidableEq, Repr

/-- One entry of `flag.VisitAll`: name, current value and usage text. -/
structure Flag where
  name : String
  value : String
  usage : String
  deriving DecidableEq, Repr

/-- Observable actions of one invocation, in program order. -/
inductive Event where
  | flagParse
  | flagenvParse
  | flagconfigParse
  | gomaxprocs (n : Int)
  | stdoutWrite (s : String)
  | stderrWrite (s : String)
  | devrestarterInit
  | redirectOutputs (stdout stderr : String)
  | pidfileWrite
  | pidfileRead
  | findProcess (pid : Int)
  | signal (pid : Int) (sig : Signal)
  deriving DecidableEq, Repr

/-- What `flag.Parse()` makes of the command line: it accepts it, leaving the
positional arguments; or it meets `-h` or `-help`; or it rejects it with an
error (a flag that is not defined, a value that does not parse). -/
inductive ParseResult where
  | ok (args : List String)
  | help
  | failed (err : GoError)

/-- The process environment of one invocation: the command line and what each
external collaborator answers when called. -/
structure Env where
  /-- Value of `os.Args[0]`. -/
  arg0 : String
  /-- Outcome of `flag.Parse()`. -/
  parsed : ParseResult
  /-- Value of the `-stdout` flag. -/
  stdout : String
  /-- Value of the `-stderr` flag. -/
  stderr : String
  /-- Value of the `-gomaxprocs` flag. -/
  goMaxProcs : Int
  /-- Value of the `-devrestarter` flag. -/
  enableDevRestarter : Bool
  /-- All defined flags, in the order `flag.VisitAll` visits them. -/
  flags : List Flag
  /-- Result of `pidfile.Read()`. -/
  pidfileRead : Except GoError Int
  /-- Result of `pidfile.Write()` (`none` is `nil`). -/
  pidfileWrite : Option GoError
  /-- Result of `stdfd.RedirectOutputs(stdout, stderr)`. -/
  redirectOutputs : String → String → Option GoError
  /-- Error result of `os.FindProcess(pid)`. -/
  findProcess : Int → Option GoError
  /-- Result of `process.Signal(sig)` on the process found for `pid`. -/
  signal : Int → Signal → Option GoError

/-- How a computation ends: it returns a value to its caller, or the process
is terminated by `os.Exit(code)`. -/
inductive Outcome (α : Type) where
  | ret (a : α)
  | exit (code : Nat)
  deriving DecidableEq, Repr

/-- A finished computation: the actions performed and how it ended. -/
structure Run (α : Type) where
  trace : List Event
  out : Outcome α

/-- Sequencing: nothing runs after `os.Exit`. -/
def Run.bind {α β : Type} (x : Run α) (f : α → Run β) : Run β :=
  match x.out with
  | .exit c => ⟨x.trace, .exit c⟩
  | .ret a => ⟨x.trace ++ (f a).trace, (f a).out⟩

instance : Monad Run where
  pure a := ⟨[], .ret a⟩
  bind := Run.bind

/-- Perform one action. -/
def emit (e : Event) : Run Unit := ⟨[e], .ret ()⟩

/-- Terminate the process: `os.Exit(code)`. -/
def osExit {α : Type} (code : Nat) : Run α := ⟨[], .exit code⟩

/-- Unix `filepath.Base`: the last element of a path, trailing slashes
removed; `.` for the empty path and `/` for a path of slashes only. -/
def filepathBase (path : String) : String :=
  if path = "" then "."
  else
    let stripped := (path.data.reverse.dropWhile (· == '/')).reverse
    let last := (stripped.reverse.takeWhile (· != '/')).reverse
    if last = [] then "/" else String.mk last

/-- The call `flag.Args()`: the positional arguments a successful parse left.
It is reached only after a successful parse; otherwise there are none. -/
def Env.args (env : Env) : List String :=
  match env.parsed with
  | .ok args => args
  | .help => []
  | .failed _ => []

/-- The call `flag.Arg(i)`: the i-th positional argument, or the empty string. -/
def flagArg (env : Env) (i : Nat) : String := env.args.getD i ""

/-- The method `ProcessControl.sendSignal`. -/
def sendSignal (env : Env) (p : Int) (sig : Signal) : Run (Option GoError) := do
  emit (.findProcess p)
  match env.findProcess p with
  | some err => pure (some err)
  | none =>
    emit (.signal p sig)
    match env.signal p sig with
    | some err => pure (some err)
    | none => pure none

/-- The method `ProcessControl.Stop`. -/
def Stop (env : Env) (p : Int) : Run (Option GoError) :=
  sendSignal env p .SIGTERM

/-- The method `ProcessControl.Restart`. -/
def Restart (env : Env) (p : Int) : Run (Option GoError) :=
  sendSignal env p .SIGUSR2

/-- The method `ProcessControl.Kill`. -/
def Kill (env : Env) (p : Int) : Run (Option GoError) :=
  sendSignal env p .SIGKILL

/-- The first line `usage` prints. -/
def usageLine (env : Env) : String :=
  "usage: " ++ filepathBase env.arg0 ++ " [options...] \x7bstart|stop|kill|restart\x7d\n"

/-- The line `usage` prints for one flag. -/
def flagLine (f : Flag) : String :=
  "  -" ++ f.name ++ "=" ++ f.value ++ ": " ++ f.usage ++ "\n"

/-- The call `flag.VisitAll(fn)`: `fn` is applied to every flag in turn. -/
def visitAll : List Flag → (Flag → Run Unit) → Run Unit
  | [], _ => pure ()
  | f :: fs, fn => do
    fn f
    visitAll fs fn

/-- The function `usage`. -/
def usage (env : Env) : Run Unit := do
  emit .flagenvParse
  emit .flagconfigParse
  emit (.stderrWrite (usageLine env))
  visitAll env.flags fun f =>
    emit (.stderrWrite (flagLine f))

/-- The call `flag.Parse()` in `SimpleStart`, made after `flag.Usage = usage`.
On a command line it accepts it returns.  On `-h` or `-help` it calls the usage
function and exits with status 0.  On a command line it rejects it writes the
error and a newline to the error stream, calls the usage function and exits
with status 2. -/
def flagParse (env : Env) : Run Unit := do
  emit .flagParse
  match env.parsed with
  | .ok _ => pure ()
  | .help =>
    usage env
    osExit 0
  | .failed err =>
    emit (.stderrWrite (err.msg ++ "\n"))
    usage env
    osExit 2

/-- The function `prestart`. -/
def prestart (env : Env) (enableDevRestarter : Bool) (stdout stderr : String) :
    Run (Option GoError) := do
  if enableDevRestarter then
    emit .devrestarterInit
  emit (.redirectOutputs stdout stderr)
  match env.redirectOutputs stdout stderr with
  | some err => pure (some err)
  | none =>
    emit .pidfileWrite
    match env.pidfileWrite with
    | some err => pure (some err)
    | none => pure none

/-- The function `exitOnError`. -/
def exitOnError (err : Option GoError) : Run Unit :=
  match err with
  | some e => do
    emit (.stderrWrite e.msg)
    osExit 2
  | none => pure ()

/-- The function `mustPidfilePC`. -/
def mustPidfilePC (env : Env) : Run Int := do
  emit .pidfileRead
  match env.pidfileRead with
  | .error err =>
    exitOnError (some err)
    pure 0
  | .ok pid =>
    exitOnError none
    pure pid

/-- The `restart` case of `SimpleStart` up to the point where `err` is final:
the pidfile read and, when it succeeds, the restart signal. -/
def restartAttempt (env : Env) : Run (Option GoError) := do
  emit .pidfileRead
  match env.pidfileRead with
  | .error err => pure (some err)
  | .ok pid => Restart env pid

/-- The text of `fmt.Printf("%s restart error: %s. trying fresh start.\n", ...)`
in the `restart` case. -/
def restartMessage (env : Env) (err : GoError) : String :=
  filepathBase env.arg0 ++ " restart error: " ++ err.msg ++ ". trying fresh start.\n"

/-- The function `SimpleStart`.  `Outcome.ret` is a return to the caller.  A
case that leaves the `switch` without `return` (`stop`, `kill`, and `restart`
through its `break`) runs into the final `os.Exit(0)`. -/
def SimpleStart (env : Env) : Run Unit := do
  flagParse env
  emit .flagenvParse
  emit .flagconfigParse
  if env.args.length < 1 then
    emit (.stderrWrite "no command was specified\n")
    usage env
    osExit 1
  else
    emit (.gomaxprocs env.goMaxProcs)
    let cmd := flagArg env 0
    if cmd = "start" then
      exitOnError (← prestart env env.enableDevRestarter env.stdout env.stderr)
    else if cmd = "stop" then
      exitOnError (← Stop env (← mustPidfilePC env))
      osExit 0
    else if cmd = "kill" then
      exitOnError (← Kill env (← mustPidfilePC env))
      osExit 0
    else if cmd = "restart" then
      match ← restartAttempt env with
      | none => osExit 0
      | some err =>
        emit (.stdoutWrite (restartMessage env err))
        exitOnError (← prestart env env.enableDevRestarter env.stdout env.stderr)
    else
      emit (.stderrWrite ("unknown command: " ++ cmd ++ "\n"))
      usage env
      osExit 1

/-- The actions every invocation that names a command performs before the
command is dispatched. -/
def header (env : Env) : List Event :=
  [.flagParse, .flagenvParse, .flagconfigParse, .gomaxprocs env.goMaxProcs]

/-! ## Observations on a trace -/

/-- Text written to standard output. -/
def stdoutText : List Event → String
  | [] => ""
  | .stdoutWrite s :: t => s ++ stdoutText t
  | _ :: t => stdoutText t

/-- Text written to standard error. -/
def stderrText : List Event → String
  | [] => ""
  | .stderrWrite s :: t => s ++ stderrText t
  | _ :: t => stderrText t

/-- Everything written to either stream, in the order written. -/
def outputText : List Event → String
  | [] => ""
  | .stdoutWrite s :: t => s ++ outputText t
  | .stderrWrite s :: t => s ++ outputText t
  | _ :: t => outputText t

/-- The signals delivered, with the process each was addressed to. -/
def signalsSent : List Event → List (Int × Signal)
  | [] => []
  | .signal p s :: t => (p, s) :: signalsSent t
  | _ :: t => signalsSent t

/-- The process ids looked up. -/
def lookups : List Event → List Int
  | [] => []
  | .findProcess p :: t => p :: lookups t
  | _ :: t => lookups t

/-- Number of calls of `pidfile.Read`. -/
def pidfileReads : List Event → Nat
  | [] => 0
  | .pidfileRead :: t => pidfileReads t + 1
  | _ :: t => pidfileReads t

/-- Number of attempts to redirect the outputs.  A run of `prestart` makes
exactly one, so this counts the runs of the initialization sequence. -/
def redirectAttempts : List Event → Nat
  | [] => 0
  | .redirectOutputs _ _ :: t => redirectAttempts t + 1
  | _ :: t => redirectAttempts t

/-- Whether an action belongs to the initialization sequence. -/
def Event.isInit : Event → Bool
  | .devrestarterInit => true
  | .redirectOutputs _ _ => true
  | .pidfileWrite => true
  | _ => false

/-- The actions of the initialization sequence found in a trace. -/
def initEvents (t : List Event) : List Event := t.filter Event.isInit

/-- The part of a trace that precedes the initialization sequence. -/
def beforeInit (t : List Event) : List Event := t.takeWhile fun e => !e.isInit

/-- The strings of a list, one after the other. -/
def concatAll : List String → String
  | [] => ""
  | s :: t => s ++ concatAll t

/-- The usage text: the line
`usage: <base name> [options...] {start|stop|kill|restart}`, then for every
defined flag the line `  -<name>=<value>: <usage>`. -/
def usageText (env : Env) : String :=
  "usage: " ++ filepathBase env.arg0 ++ " [options...] \x7bstart|stop|kill|restart\x7d\n" ++
    concatAll (env.flags.map fun f =>
      "  -" ++ f.name ++ "=" ++ f.value ++ ": " ++ f.usage ++ "\n")

/-- On Unix, the only platforms the package builds on, `os.FindProcess` always
succeeds: it returns a handle for the pid whether or not such a process
exists. -/
def UnixFindProcess (env : Env) : Prop := ∀ p, env.findProcess p = none

/-! ## Sample environments -/

/-- A server started with `start`: every collaborator succeeds, and a pidfile
naming process 4242 is in place for the other commands. -/
def sampleEnv : Env where
  arg0 := "/usr/local/bin/server"
  parsed := .ok ["start"]
  stdout := ""
  stderr := ""
  goMaxProcs := 4
  enableDevRestarter := false
  flags := [⟨"devrestarter", "false", "if true the devrestarter will be enabled"⟩,
    ⟨"gomaxprocs", "4", "gomaxprocs"⟩,
    ⟨"stderr", "", "file path to redirect stderr to"⟩,
    ⟨"stdout", "", "file path to redirect stdout to"⟩]
  pidfileRead := .ok 4242
  pidfileWrite := none
  redirectOutputs := fun _ _ => none
  findProcess := fun _ => none
  signal := fun _ _ => none

/-- The error `pidfile.Read` reports when there is no pidfile. -/
def noPidfile : GoError := ⟨"open /var/run/server.pid: no such file or directory"⟩

/-- The error reported for a process that has gone. -/
def processGone : GoError := ⟨"os: process already finished"⟩

/-- No command on the command line. -/
def envNoCommand : Env := { sampleEnv with parsed := .ok [] }

/-- An unknown command on the command line. -/
def envUnknownCommand : Env := { sampleEnv with parsed := .ok ["reload"] }

/-- A flag that is not defined and no command: `server -bogus`. -/
def envBadFlag : Env :=
  { sampleEnv with parsed := .failed ⟨"flag provided but not defined: -bogus"⟩ }

/-- A request for help: `server -h`. -/
def envHelp : Env := { sampleEnv with parsed := .help }

/-- Run `stop` against a running server. -/
def envStopRunning : Env := { sampleEnv with parsed := .ok ["stop"] }

/-- Run `stop` when there is no pidfile. -/
def envStopNoPidfile : Env := { sampleEnv with parsed := .ok ["stop"], pidfileRead := .error noPidfile }

/-- Run `restart` against a running server. -/
def envRestartRunning : Env := { sampleEnv with parsed := .ok ["restart"] }

/-- Run `restart` when there is no pidfile and initialization succeeds. -/
def envRestartNoPidfile : Env :=
  { sampleEnv with parsed := .ok ["restart"], pidfileRead := .error noPidfile }

/-- Run `restart` when the pidfile is stale: signalling process 4242 fails. -/
def envRestartStale : Env :=
  { sampleEnv with parsed := .ok ["restart"], signal := fun _ _ => some processGone }

/-- Run `restart` when there is no pidfile and the outputs cannot be
redirected. -/
def envRestartInitFails : Env :=
  { sampleEnv with
    parsed := .ok ["restart"]
    stdout := "/nonexistent/server.out"
    pidfileRead := .error noPidfile
    redirectOutputs := fun _ _ =>
      some ⟨"open /nonexistent/server.out: no such file or directory"⟩ }

/-- Run `start` when the outputs cannot be redirected. -/
def envStartInitFails : Env :=
  { sampleEnv with
    stdout := "/nonexistent/server.out"
    redirectOutputs := fun _ _ =>
      some ⟨"open /nonexistent/server.out: no such file or directory"⟩ }

/-! ## Closed forms of the runs -/

/-- A command line with a positional argument was accepted by `flag.Parse`. -/
theorem args_cons_parsed {env : Env} {c : String} {r : List String}
    (h : env.args = c :: r) : env.parsed = .ok (c :: r) := by
  unfold Env.args at h
  cases hp : env.parsed with
  | ok a => rw [hp] at h; exact congrArg ParseResult.ok h
  | help => rw [hp] at h; cases h
  | failed e => rw [hp] at h; cases h

theorem args_of_parsed {env : Env} {a : List String}
    (h : env.parsed = .ok a) : env.args = a := by
  unfold Env.args
  rw [h]

theorem sendSignal_run (env : Env) (p : Int) (sig : Signal) :
    sendSignal env p sig =
      match env.findProcess p with
      | some e => ⟨[.findProcess p], .ret (some e)⟩
      | none => ⟨[.findProcess p, .signal p sig], .ret (env.signal p sig)⟩ := by
  unfold sendSignal
  cases h1 : env.findProcess p <;> cases h2 : env.signal p sig <;>
    simp [h1, h2, bind, Run.bind, pure, emit]

theorem prestart_run (env : Env) (b : Bool) (so se : String) :
    prestart env b so se =
      ⟨(if b then [.devrestarterInit] else []) ++ [.redirectOutputs so se] ++
          (if env.redirectOutputs so se = none then [.pidfileWrite] else []),
        .ret (match env.redirectOutputs so se with
              | some e => some e
              | none => env.pidfileWrite)⟩ := by
  unfold prestart
  cases b <;> cases h1 : env.redirectOutputs so se <;> cases h2 : env.pidfileWrite <;>
    simp [h1, h2, bind, Run.bind, pure, emit]

theorem flagLoop_run (fs : List Flag) :
    (visitAll fs fun f => emit (.stderrWrite (flagLine f))) =
      (⟨fs.map fun f => .stderrWrite (flagLine f), .ret ()⟩ : Run Unit) := by
  induction fs with
  | nil => rfl
  | cons f fs ih =>
    rw [visitAll, ih]
    simp [bind, Run.bind, emit]

theorem usage_run (env : Env) :
    usage env =
      ⟨[.flagenvParse, .flagconfigParse, .stderrWrite (usageLine env)] ++
          env.flags.map (fun f => .stderrWrite (flagLine f)), .ret ()⟩ := by
  unfold usage
  rw [flagLoop_run]
  simp [bind, Run.bind, emit]

/-! ## Observations distribute over concatenation -/

theorem stdoutText_append (a b : List Event) :
    stdoutText (a ++ b) = stdoutText a ++ stdoutText b := by
  induction a with
  | nil => simp [stdoutText]
  | cons e a ih => cases e <;> simp [stdoutText, ih, String.append_assoc]

theorem stderrText_append (a b : List Event) :
    stderrText (a ++ b) = stderrText a ++ stderrText b := by
  induction a with
  | nil => simp [stderrText]
  | cons e a ih => cases e <;> simp [stderrText, ih, String.append_assoc]

theorem outputText_append (a b : List Event) :
    outputText (a ++ b) = outputText a ++ outputText b := by
  induction a with
  | nil => simp [outputText]
  | cons e a ih => cases e <;> simp [outputText, ih, String.append_assoc]

theorem signalsSent_append (a b : List Event) :
    signalsSent (a ++ b) = signalsSent a ++ signalsSent b := by
  induction a with
  | nil => simp [signalsSent]
  | cons e a ih => cases e <;> simp [signalsSent, ih]

theorem lookups_append (a b : List Event) :
    lookups (a ++ b) = lookups a ++ lookups b := by
  induction a with
  | nil => simp [lookups]
  | cons e a ih => cases e <;> simp [lookups, ih]

theorem pidfileReads_append (a b : List Event) :
    pidfileReads (a ++ b) = pidfileReads a + pidfileReads b := by
  induction a with
  | nil => simp [pidfileReads]
  | cons e a ih =>
    cases e <;> simp [pidfileReads, ih]
    omega

theorem redirectAttempts_append (a b : List Event) :
    redirectAttempts (a ++ b) = redirectAttempts a + redirectAttempts b := by
  induction a with
  | nil => simp [redirectAttempts]
  | cons e a ih =>
    cases e <;> simp [redirectAttempts, ih]
    omega

theorem initEvents_append (a b : List Event) :
    initEvents (a ++ b) = initEvents a ++ initEvents b := by
  simp [initEvents]

/-- What the flag lines of `usage` amount to under each observation. -/
theorem flagWrites_obs (fs : List Flag) :
    stderrText (fs.map fun f => .stderrWrite (flagLine f)) = concatAll (fs.map flagLine) ∧
    outputText (fs.map fun f => .stderrWrite (flagLine f)) = concatAll (fs.map flagLine) ∧
    stdoutText (fs.map fun f => .stderrWrite (flagLine f)) = "" ∧
    signalsSent (fs.map fun f => .stderrWrite (flagLine f)) = [] ∧
    lookups (fs.map fun f => .stderrWrite (flagLine f)) = [] ∧
    initEvents (fs.map fun f => .stderrWrite (flagLine f)) = [] ∧
    pidfileReads (fs.map fun f => .stderrWrite (flagLine f)) = 0 ∧
    redirectAttempts (fs.map fun f => .stderrWrite (flagLine f)) = 0 := by
  induction fs with
  | nil => simp [stderrText, outputText, stdoutText, signalsSent, lookups, initEvents,
      pidfileReads, redirectAttempts, concatAll]
  | cons f fs ih =>
    obtain ⟨h1, h2, h3, h4, h5, h6, h7, h8⟩ := ih
    simp only [initEvents] at h6
    simp [stderrText, outputText, stdoutText, signalsSent, lookups, initEvents,
      pidfileReads, redirectAttempts, concatAll, h1, h2, h3, h4, h5, h6, h7, h8, Event.isInit]

/-! ## Closed forms of `SimpleStart`, one per path through it -/

theorem SimpleStart_noCommand (env : Env) (h : env.parsed = .ok []) :
    SimpleStart env =
      ⟨[.flagParse, .flagenvParse, .flagconfigParse,
          .stderrWrite "no command was specified\n"] ++ (usage env).trace, .exit 1⟩ := by
  simp [SimpleStart, flagParse, pure, h, args_of_parsed h, bind, Run.bind, emit, osExit, usage_run]

theorem SimpleStart_help (env : Env) (h : env.parsed = .help) :
    SimpleStart env = ⟨[.flagParse] ++ (usage env).trace, .exit 0⟩ := by
  simp [SimpleStart, flagParse, pure, h, bind, Run.bind, emit, osExit, usage_run]

theorem SimpleStart_parseFailed (env : Env) (err : GoError) (h : env.parsed = .failed err) :
    SimpleStart env =
      ⟨[.flagParse, .stderrWrite (err.msg ++ "\n")] ++ (usage env).trace, .exit 2⟩ := by
  simp [SimpleStart, flagParse, pure, h, bind, Run.bind, emit, osExit, usage_run]

theorem SimpleStart_unknown (env : Env) (cmd : String) (rest : List String)
    (h : env.args = cmd :: rest)
    (hc : cmd ∉ ["start", "stop", "kill", "restart"]) :
    SimpleStart env =
      ⟨header env ++ [.stderrWrite ("unknown command: " ++ cmd ++ "\n")] ++ (usage env).trace,
        .exit 1⟩ := by
  simp at hc
  simp [SimpleStart, flagParse, pure, args_cons_parsed h, h, hc, flagArg, bind, Run.bind, emit, osExit, usage_run, header]

theorem SimpleStart_start_ok (env : Env) (rest : List String)
    (h : env.args = "start" :: rest)
    (hp : (prestart env env.enableDevRestarter env.stdout env.stderr).out = .ret none) :
    SimpleStart env =
      ⟨header env ++ (prestart env env.enableDevRestarter env.stdout env.stderr).trace,
        .ret ()⟩ := by
  simp [SimpleStart, flagParse, pure, args_cons_parsed h, h, hp, flagArg, bind, Run.bind, emit, exitOnError, pure, header]

theorem SimpleStart_start_err (env : Env) (rest : List String) (e : GoError)
    (h : env.args = "start" :: rest)
    (hp : (prestart env env.enableDevRestarter env.stdout env.stderr).out = .ret (some e)) :
    SimpleStart env =
      ⟨header env ++ (prestart env env.enableDevRestarter env.stdout env.stderr).trace ++
        [.stderrWrite e.msg], .exit 2⟩ := by
  simp [SimpleStart, flagParse, pure, args_cons_parsed h, h, hp, flagArg, bind, Run.bind, emit, exitOnError, pure, header, osExit]

theorem SimpleStart_signal_readErr (env : Env) (v : String) (rest : List String) (e : GoError)
    (hv : v = "stop" ∨ v = "kill")
    (h : env.args = v :: rest) (hr : env.pidfileRead = .error e) :
    SimpleStart env = ⟨header env ++ [.pidfileRead, .stderrWrite e.msg], .exit 2⟩ := by
  rcases hv with rfl | rfl <;>
    simp [SimpleStart, flagParse, pure, args_cons_parsed h, h, hr, flagArg, bind, Run.bind, emit, exitOnError, pure, header, osExit,
      mustPidfilePC]

theorem SimpleStart_signal_ok (env : Env) (v : String) (sig : Signal) (rest : List String)
    (pid : Int)
    (hv : (v = "stop" ∧ sig = .SIGTERM) ∨ (v = "kill" ∧ sig = .SIGKILL))
    (h : env.args = v :: rest) (hr : env.pidfileRead = .ok pid)
    (hs : (sendSignal env pid sig).out = .ret none) :
    SimpleStart env = ⟨header env ++ [.pidfileRead] ++ (sendSignal env pid sig).trace,
      .exit 0⟩ := by
  rcases hv with ⟨rfl, rfl⟩ | ⟨rfl, rfl⟩ <;>
    simp [SimpleStart, flagParse, pure, args_cons_parsed h, h, hr, hs, flagArg, bind, Run.bind, emit, exitOnError, pure, header,
      osExit, mustPidfilePC, Stop, Kill]

theorem SimpleStart_signal_err (env : Env) (v : String) (sig : Signal) (rest : List String)
    (pid : Int) (e : GoError)
    (hv : (v = "stop" ∧ sig = .SIGTERM) ∨ (v = "kill" ∧ sig = .SIGKILL))
    (h : env.args = v :: rest) (hr : env.pidfileRead = .ok pid)
    (hs : (sendSignal env pid sig).out = .ret (some e)) :
    SimpleStart env =
      ⟨header env ++ [.pidfileRead] ++ (sendSignal env pid sig).trace ++ [.stderrWrite e.msg],
        .exit 2⟩ := by
  rcases hv with ⟨rfl, rfl⟩ | ⟨rfl, rfl⟩ <;>
    simp [SimpleStart, flagParse, pure, args_cons_parsed h, h, hr, hs, flagArg, bind, Run.bind, emit, exitOnError, pure, header,
      osExit, mustPidfilePC, Stop, Kill]

theorem restartAttempt_run (env : Env) :
    restartAttempt env =
      match env.pidfileRead with
      | .error e => ⟨[.pidfileRead], .ret (some e)⟩
      | .ok pid =>
        match env.findProcess pid with
        | some e => ⟨[.pidfileRead, .findProcess pid], .ret (some e)⟩
        | none =>
          ⟨[.pidfileRead, .findProcess pid, .signal pid .SIGUSR2],
            .ret (env.signal pid .SIGUSR2)⟩ := by
  unfold restartAttempt
  cases h1 : env.pidfileRead with
  | error e => simp [bind, Run.bind, emit, pure]
  | ok pid =>
    cases h2 : env.findProcess pid <;>
      simp [bind, Run.bind, emit, Restart, sendSignal_run, h2]

theorem SimpleStart_restart_ok (env : Env) (rest : List String)
    (h : env.args = "restart" :: rest) (ha : (restartAttempt env).out = .ret none) :
    SimpleStart env = ⟨header env ++ (restartAttempt env).trace, .exit 0⟩ := by
  simp [SimpleStart, flagParse, pure, args_cons_parsed h, h, ha, flagArg, bind, Run.bind, emit, header, osExit]

theorem SimpleStart_restart_fresh_ok (env : Env) (rest : List String) (e : GoError)
    (h : env.args = "restart" :: rest) (ha : (restartAttempt env).out = .ret (some e))
    (hp : (prestart env env.enableDevRestarter env.stdout env.stderr).out = .ret none) :
    SimpleStart env =
      ⟨header env ++ (restartAttempt env).trace ++ [.stdoutWrite (restartMessage env e)] ++
        (prestart env env.enableDevRestarter env.stdout env.stderr).trace, .ret ()⟩ := by
  simp [SimpleStart, flagParse, pure, args_cons_parsed h, h, ha, hp, flagArg, bind, Run.bind, emit, header, osExit, exitOnError, pure]

theorem SimpleStart_restart_fresh_err (env : Env) (rest : List String) (e e2 : GoError)
    (h : env.args = "restart" :: rest) (ha : (restartAttempt env).out = .ret (some e))
    (hp : (prestart env env.enableDevRestarter env.stdout env.stderr).out = .ret (some e2)) :
    SimpleStart env =
      ⟨header env ++ (restartAttempt env).trace ++ [.stdoutWrite (restartMessage env e)] ++
        (prestart env env.enableDevRestarter env.stdout env.stderr).trace ++
        [.stderrWrite e2.msg], .exit 2⟩ := by
  simp [SimpleStart, flagParse, pure, args_cons_parsed h, h, ha, hp, flagArg, bind, Run.bind, emit, header, osExit, exitOnError, pure]

/-! ## Every collaborator call returns -/

theorem sendSignal_returns (env : Env) (p : Int) (sig : Signal) :
    ∃ v, (sendSignal env p sig).out = .ret v := by
  rw [sendSignal_run]
  cases env.findProcess p <;> exact ⟨_, rfl⟩

theorem prestart_returns (env : Env) (b : Bool) (so se : String) :
    ∃ v, (prestart env b so se).out = .ret v := by
  rw [prestart_run]
  exact ⟨_, rfl⟩

theorem restartAttempt_returns (env : Env) :
    ∃ v, (restartAttempt env).out = .ret v := by
  rw [restartAttempt_run]
  cases env.pidfileRead with
  | error e => exact ⟨_, rfl⟩
  | ok pid => cases h2 : env.findProcess pid <;> simp [h2]

/-- The result of the `restart` attempt, read off the collaborators: the read
error, or else what `Restart` returns for the pid read. -/
theorem restartAttempt_out (env : Env) (r : Option GoError) :
    (restartAttempt env).out = .ret r ↔
      (∃ e, env.pidfileRead = .error e ∧ r = some e) ∨
      (∃ pid, env.pidfileRead = .ok pid ∧ (Restart env pid).out = .ret r) := by
  rw [restartAttempt_run]
  cases hr : env.pidfileRead with
  | error e => simp [eq_comm]
  | ok pid =>
    cases h1 : env.findProcess pid <;> simp [Restart, sendSignal_run, h1]

/-- Every invocation takes exactly one of twelve paths, told apart by the
command line and by what the collaborators answer. -/
theorem SimpleStart_paths (env : Env) :
    env.parsed = .help ∨
    (∃ err, env.parsed = .failed err) ∨
    env.parsed = .ok [] ∨
    (∃ cmd rest, env.args = cmd :: rest ∧ cmd ∉ ["start", "stop", "kill", "restart"]) ∨
    (∃ rest, env.args = "start" :: rest ∧
      (prestart env env.enableDevRestarter env.stdout env.stderr).out = .ret none) ∨
    (∃ rest e, env.args = "start" :: rest ∧
      (prestart env env.enableDevRestarter env.stdout env.stderr).out = .ret (some e)) ∨
    (∃ v rest e, (v = "stop" ∨ v = "kill") ∧ env.args = v :: rest ∧
      env.pidfileRead = .error e) ∨
    (∃ v sig rest n, ((v = "stop" ∧ sig = Signal.SIGTERM) ∨ (v = "kill" ∧ sig = Signal.SIGKILL)) ∧
      env.args = v :: rest ∧ env.pidfileRead = .ok n ∧
      (sendSignal env n sig).out = .ret none) ∨
    (∃ v sig rest n e,
      ((v = "stop" ∧ sig = Signal.SIGTERM) ∨ (v = "kill" ∧ sig = Signal.SIGKILL)) ∧
      env.args = v :: rest ∧ env.pidfileRead = .ok n ∧
      (sendSignal env n sig).out = .ret (some e)) ∨
    (∃ rest, env.args = "restart" :: rest ∧ (restartAttempt env).out = .ret none) ∨
    (∃ rest e, env.args = "restart" :: rest ∧ (restartAttempt env).out = .ret (some e) ∧
      (prestart env env.enableDevRestarter env.stdout env.stderr).out = .ret none) ∨
    (∃ rest e e2, env.args = "restart" :: rest ∧
      (restartAttempt env).out = .ret (some e) ∧
      (prestart env env.enableDevRestarter env.stdout env.stderr).out = .ret (some e2)) := by
  obtain ⟨v, hp⟩ := prestart_returns env env.enableDevRestarter env.stdout env.stderr
  obtain ⟨a, ha⟩ := restartAttempt_returns env
  cases hq : env.parsed with
  | help => exact Or.inl rfl
  | failed err => exact Or.inr (Or.inl ⟨err, rfl⟩)
  | ok args =>
  right
  right
  have hargs : env.args = args := args_of_parsed hq
  cases args with
  | nil => exact Or.inl rfl
  | cons cmd rest =>
    right
    by_cases c1 : cmd = "start"
    · subst c1
      cases v with
      | none => exact Or.inr (Or.inl ⟨rest, hargs, hp⟩)
      | some e => exact Or.inr (Or.inr (Or.inl ⟨rest, e, hargs, hp⟩))
    by_cases c4 : cmd = "restart"
    · subst c4
      refine Or.inr (Or.inr (Or.inr (Or.inr (Or.inr (Or.inr ?_)))))
      cases a with
      | none => exact Or.inl ⟨rest, hargs, ha⟩
      | some e =>
        cases v with
        | none => exact Or.inr (Or.inl ⟨rest, e, hargs, ha, hp⟩)
        | some e2 => exact Or.inr (Or.inr ⟨rest, e, e2, hargs, ha, hp⟩)
    by_cases c23 : cmd = "stop" ∨ cmd = "kill"
    · refine Or.inr (Or.inr (Or.inr ?_))
      cases hr : env.pidfileRead with
      | error e => exact Or.inl ⟨cmd, rest, e, c23, hargs, rfl⟩
      | ok n =>
        right
        have hv : ∃ sig, (cmd = "stop" ∧ sig = Signal.SIGTERM) ∨
            (cmd = "kill" ∧ sig = Signal.SIGKILL) := by
          rcases c23 with c | c
          · exact ⟨_, Or.inl ⟨c, rfl⟩⟩
          · exact ⟨_, Or.inr ⟨c, rfl⟩⟩
        obtain ⟨sig, hsig⟩ := hv
        obtain ⟨r, hs⟩ := sendSignal_returns env n sig
        cases r with
        | none => exact Or.inl ⟨cmd, sig, rest, n, hsig, hargs, rfl, hs⟩
        | some e => exact Or.inr (Or.inl ⟨cmd, sig, rest, n, e, hsig, hargs, rfl, hs⟩)
    · left
      refine ⟨cmd, rest, hargs, ?_⟩
      simp only [not_or] at c23
      simp [c1, c4, c23.1, c23.2]

/-! ## Process control -/

/-- C8: for every process id `p`, each of `Stop`, `Restart` and `Kill` performs
exactly one process lookup, for `p`; when the lookup succeeds it delivers
exactly one signal, to `p` (SIGTERM, SIGUSR2 and SIGKILL respectively, three
pairwise distinct signals), and when the lookup fails it delivers none.  The
operation returns nil exactly when lookup and delivery both succeeded, and
otherwise returns the lookup error, or else the delivery error, unchanged. -/
theorem processControl_sends_one_signal (env : Env) (p : Int) :
    (Signal.SIGTERM ≠ Signal.SIGUSR2 ∧ Signal.SIGTERM ≠ Signal.SIGKILL ∧
      Signal.SIGUSR2 ≠ Signal.SIGKILL) ∧
    ∀ op sig, (op, sig) ∈ [(Stop, Signal.SIGTERM), (Restart, Signal.SIGUSR2),
        (Kill, Signal.SIGKILL)] →
      lookups (op env p).trace = [p] ∧
      (env.findProcess p = none → signalsSent (op env p).trace = [(p, sig)]) ∧
      (env.findProcess p ≠ none → signalsSent (op env p).trace = []) ∧
      ((op env p).out = .ret none ↔ env.findProcess p = none ∧ env.signal p sig = none) ∧
      (∀ e, env.findProcess p = some e → (op env p).out = .ret (some e)) ∧
      (∀ e, env.findProcess p = none → env.signal p sig = some e →
        (op env p).out = .ret (some e)) := by
  refine ⟨by decide, ?_⟩
  intro op sig hmem
  simp only [List.mem_cons, Prod.mk.injEq, List.mem_singleton, List.mem_nil_iff,
    or_false] at hmem
  rcases hmem with ⟨rfl, rfl⟩ | ⟨rfl, rfl⟩ | ⟨rfl, rfl⟩ <;>
    cases h1 : env.findProcess p <;>
    simp only [Stop, Restart, Kill, sendSignal_run, h1] <;>
    simp [lookups, signalsSent]

/-! ## The initialization sequence -/

/-- C10: in `prestart`, the dev restarter is activated exactly when
`enableDevRestarter` is true, and then as the first action; output
redirection is attempted exactly once, with the given paths; `pidfile.Write`
is called exactly when redirection succeeded (once); and `prestart` returns
nil exactly when redirection and the pidfile write both succeeded, otherwise
the first error met, unchanged. -/
theorem prestart_sequence (env : Env) (b : Bool) (so se : String) :
    (prestart env b so se).trace =
        (if b then [Event.devrestarterInit] else []) ++ [Event.redirectOutputs so se] ++
          (if env.redirectOutputs so se = none then [Event.pidfileWrite] else []) ∧
    redirectAttempts (prestart env b so se).trace = 1 ∧
    (Event.devrestarterInit ∈ (prestart env b so se).trace ↔ b = true) ∧
    (b = true → (prestart env b so se).trace.head? = some Event.devrestarterInit) ∧
    (∀ e ∈ (prestart env b so se).trace, e.isInit = true) ∧
    (Event.pidfileWrite ∈ (prestart env b so se).trace ↔ env.redirectOutputs so se = none) ∧
    ((prestart env b so se).out = .ret none ↔
      env.redirectOutputs so se = none ∧ env.pidfileWrite = none) ∧
    (∀ e, env.redirectOutputs so se = some e → (prestart env b so se).out = .ret (some e)) ∧
    (∀ e, env.redirectOutputs so se = none → env.pidfileWrite = some e →
      (prestart env b so se).out = .ret (some e)) := by
  cases b <;> cases h1 : env.redirectOutputs so se <;>
    simp only [prestart_run, h1] <;>
    simp [Event.isInit, redirectAttempts]

/-! ## The dispatcher -/

/-- C9: for the verb `start`, `SimpleStart` never reads the pidfile, looks up
no process and sends no signal; it runs the initialization sequence exactly
once.  If initialization fails with error `e`, the text of `e` is what is
written to the error stream, nothing goes to standard output, and the process
exits with status 2.  If it succeeds, `SimpleStart` prints nothing, the
pidfile has been written, and control returns to the caller. -/
theorem start_runs_initialization_once (env : Env) (rest : List String)
    (h : env.args = "start" :: rest) :
    pidfileReads (SimpleStart env).trace = 0 ∧
    lookups (SimpleStart env).trace = [] ∧
    signalsSent (SimpleStart env).trace = [] ∧
    redirectAttempts (SimpleStart env).trace = 1 ∧
    initEvents (SimpleStart env).trace =
      (prestart env env.enableDevRestarter env.stdout env.stderr).trace ∧
    (∃ v, (prestart env env.enableDevRestarter env.stdout env.stderr).out = .ret v) ∧
    (∀ e, (prestart env env.enableDevRestarter env.stdout env.stderr).out = .ret (some e) →
      (SimpleStart env).out = .exit 2 ∧ stderrText (SimpleStart env).trace = e.msg ∧
      stdoutText (SimpleStart env).trace = "") ∧
    ((prestart env env.enableDevRestarter env.stdout env.stderr).out = .ret none →
      (SimpleStart env).out = .ret () ∧ outputText (SimpleStart env).trace = "" ∧
      Event.pidfileWrite ∈ (SimpleStart env).trace ∧ env.pidfileWrite = none) := by
  obtain ⟨v, hv⟩ := prestart_returns env env.enableDevRestarter env.stdout env.stderr
  refine ⟨?_, ?_, ?_, ?_, ?_, ⟨v, hv⟩, ?_⟩
  all_goals
    cases v with
    | none =>
      rw [SimpleStart_start_ok env rest h hv]
      rw [prestart_run] at hv ⊢
      cases hb : env.enableDevRestarter <;>
        cases h1 : env.redirectOutputs env.stdout env.stderr <;>
        simp only [h1, header] at hv ⊢ <;>
        simp_all [pidfileReads, lookups, signalsSent, redirectAttempts, initEvents,
          Event.isInit, stderrText, stdoutText, outputText]
    | some e0 =>
      rw [SimpleStart_start_err env rest e0 h hv]
      rw [prestart_run] at hv ⊢
      cases hb : env.enableDevRestarter <;>
        cases h1 : env.redirectOutputs env.stdout env.stderr <;>
        simp only [h1, header] at hv ⊢ <;>
        simp_all [pidfileReads, lookups, signalsSent, redirectAttempts, initEvents,
          Event.isInit, stderrText, stdoutText, outputText]

/-- C2: for the verbs `stop` and `kill`, when `pidfile.Read` fails with error
`e` the process exits with status 2, the whole output of the invocation is
exactly the text of `e` (written to the error stream, nothing added), no
process is looked up, no signal is sent and the initialization sequence is not
run. -/
theorem stop_kill_read_failure (env : Env) (v : String) (rest : List String) (e : GoError)
    (hv : v = "stop" ∨ v = "kill") (h : env.args = v :: rest)
    (hr : env.pidfileRead = .error e) :
    (SimpleStart env).out = .exit 2 ∧
    outputText (SimpleStart env).trace = e.msg ∧
    stderrText (SimpleStart env).trace = e.msg ∧
    stdoutText (SimpleStart env).trace = "" ∧
    lookups (SimpleStart env).trace = [] ∧
    signalsSent (SimpleStart env).trace = [] ∧
    initEvents (SimpleStart env).trace = [] := by
  rw [SimpleStart_signal_readErr env v rest e hv h hr]
  simp [header, outputText, stderrText, stdoutText, lookups, signalsSent, initEvents,
    Event.isInit]

/-- The `stop` and `kill` cases after a successful pidfile read, whatever the
lookup answers: one lookup, for the pid read; one signal if the lookup
succeeds and none if it fails; status 0 and no output when the signal is
accepted, status 2 and the error as the whole output otherwise. -/
theorem stop_kill_signal_after_lookup (env : Env) (v : String) (sig : Signal)
    (rest : List String) (n : Int)
    (hv : (v = "stop" ∧ sig = .SIGTERM) ∨ (v = "kill" ∧ sig = .SIGKILL))
    (h : env.args = v :: rest) (hr : env.pidfileRead = .ok n) :
    lookups (SimpleStart env).trace = [n] ∧
    pidfileReads (SimpleStart env).trace = 1 ∧
    initEvents (SimpleStart env).trace = [] ∧
    (env.findProcess n = none →
      signalsSent (SimpleStart env).trace = [(n, sig)] ∧
      (env.signal n sig = none →
        (SimpleStart env).out = .exit 0 ∧ outputText (SimpleStart env).trace = "") ∧
      (∀ e, env.signal n sig = some e →
        (SimpleStart env).out = .exit 2 ∧ outputText (SimpleStart env).trace = e.msg)) ∧
    (∀ e, env.findProcess n = some e →
      signalsSent (SimpleStart env).trace = [] ∧
      (SimpleStart env).out = .exit 2 ∧ outputText (SimpleStart env).trace = e.msg) := by
  obtain ⟨r, hs⟩ := sendSignal_returns env n sig
  cases r with
  | none =>
    rw [SimpleStart_signal_ok env v sig rest n hv h hr hs]
    rw [sendSignal_run] at hs ⊢
    cases h1 : env.findProcess n <;> simp only [h1, header] at hs ⊢ <;>
      simp_all [lookups, pidfileReads, initEvents, Event.isInit, signalsSent, outputText]
  | some e0 =>
    rw [SimpleStart_signal_err env v sig rest n e0 hv h hr hs]
    rw [sendSignal_run] at hs ⊢
    cases h1 : env.findProcess n <;> simp only [h1, header] at hs ⊢ <;>
      simp_all [lookups, pidfileReads, initEvents, Event.isInit, signalsSent, outputText]

/-- C4: for the verb `stop` (resp. `kill`), when `pidfile.Read` succeeds with
pid `n`, exactly one signal is sent, it is SIGTERM (resp. SIGKILL) and it is
addressed to `n`, the one process looked up; the initialization sequence is
not run.  If the signal is accepted the process exits with status 0 and prints
nothing; if delivery fails with error `e` the process exits with status 2 and
its whole output is the text of `e`.  The two verbs differ in the signal only.
The process lookup is the Unix one, which always succeeds. -/
theorem stop_kill_sends_one_signal (env : Env) (v : String) (sig : Signal)
    (rest : List String) (n : Int) (hunix : UnixFindProcess env)
    (hv : (v = "stop" ∧ sig = .SIGTERM) ∨ (v = "kill" ∧ sig = .SIGKILL))
    (h : env.args = v :: rest) (hr : env.pidfileRead = .ok n) :
    signalsSent (SimpleStart env).trace = [(n, sig)] ∧
    lookups (SimpleStart env).trace = [n] ∧
    pidfileReads (SimpleStart env).trace = 1 ∧
    initEvents (SimpleStart env).trace = [] ∧
    (env.signal n sig = none →
      (SimpleStart env).out = .exit 0 ∧ outputText (SimpleStart env).trace = "") ∧
    (∀ e, env.signal n sig = some e →
      (SimpleStart env).out = .exit 2 ∧ outputText (SimpleStart env).trace = e.msg) := by
  obtain ⟨h1, h2, h3, h4, _⟩ := stop_kill_signal_after_lookup env v sig rest n hv h hr
  obtain ⟨h5, h6, h7⟩ := h4 (hunix n)
  exact ⟨h5, h1, h2, h3, h6, h7⟩

/-- C1: in the `restart` case, the process exits with status 0, prints nothing
and does not run the initialization sequence if and only if the pidfile read
succeeded and `Restart` on the pid read returned nil (and then exactly one
signal was sent, SIGUSR2 to that pid).  In every other case the initialization
sequence is run exactly once.  When the read fails, no process is looked up and
no signal is sent. -/
theorem restart_falls_back_unless_both_succeed (env : Env) (rest : List String)
    (h : env.args = "restart" :: rest) :
    (((SimpleStart env).out = .exit 0 ∧ outputText (SimpleStart env).trace = "" ∧
        initEvents (SimpleStart env).trace = []) ↔
      ∃ pid, env.pidfileRead = .ok pid ∧ (Restart env pid).out = .ret none) ∧
    ((SimpleStart env).out = .exit 0 ↔
      ∃ pid, env.pidfileRead = .ok pid ∧ (Restart env pid).out = .ret none) ∧
    ((¬ ∃ pid, env.pidfileRead = .ok pid ∧ (Restart env pid).out = .ret none) →
      redirectAttempts (SimpleStart env).trace = 1 ∧
      initEvents (SimpleStart env).trace =
        (prestart env env.enableDevRestarter env.stdout env.stderr).trace) ∧
    (∀ e, env.pidfileRead = .error e →
      lookups (SimpleStart env).trace = [] ∧ signalsSent (SimpleStart env).trace = []) ∧
    (∀ pid, env.pidfileRead = .ok pid → (Restart env pid).out = .ret none →
      signalsSent (SimpleStart env).trace = [(pid, .SIGUSR2)]) := by
  obtain ⟨a, ha⟩ := restartAttempt_returns env
  obtain ⟨v, hp⟩ := prestart_returns env env.enableDevRestarter env.stdout env.stderr
  cases a with
  | none =>
    rw [SimpleStart_restart_ok env rest h ha]
    rw [restartAttempt_run] at ha ⊢
    cases hr : env.pidfileRead with
    | error e => simp [hr] at ha
    | ok pid =>
      cases h1 : env.findProcess pid <;> simp only [hr, h1, header] at ha ⊢ <;>
        simp_all [Restart, sendSignal_run, outputText, initEvents, Event.isInit, lookups,
          signalsSent, redirectAttempts]
  | some e0 =>
    cases v with
    | none =>
      rw [SimpleStart_restart_fresh_ok env rest e0 h ha hp]
      rw [restartAttempt_run] at ha ⊢
      rw [prestart_run] at hp ⊢
      cases hr : env.pidfileRead with
      | error e =>
        cases hb : env.enableDevRestarter <;>
          cases h2 : env.redirectOutputs env.stdout env.stderr <;>
          simp only [hr, h2, header] at ha hp ⊢ <;>
          simp_all [Restart, sendSignal_run, outputText, initEvents, Event.isInit, lookups,
            signalsSent, redirectAttempts]
      | ok pid =>
        cases h1 : env.findProcess pid <;>
          cases hb : env.enableDevRestarter <;>
          cases h2 : env.redirectOutputs env.stdout env.stderr <;>
          simp only [hr, h1, h2, header] at ha hp ⊢ <;>
          simp_all [Restart, sendSignal_run, outputText, initEvents, Event.isInit, lookups,
            signalsSent, redirectAttempts]
    | some e2 =>
      rw [SimpleStart_restart_fresh_err env rest e0 e2 h ha hp]
      rw [restartAttempt_run] at ha ⊢
      rw [prestart_run] at hp ⊢
      cases hr : env.pidfileRead with
      | error e =>
        cases hb : env.enableDevRestarter <;>
          cases h2 : env.redirectOutputs env.stdout env.stderr <;>
          simp only [hr, h2, header] at ha hp ⊢ <;>
          simp_all [Restart, sendSignal_run, outputText, initEvents, Event.isInit, lookups,
            signalsSent, redirectAttempts]
      | ok pid =>
        cases h1 : env.findProcess pid <;>
          cases hb : env.enableDevRestarter <;>
          cases h2 : env.redirectOutputs env.stdout env.stderr <;>
          simp only [hr, h1, h2, header] at ha hp ⊢ <;>
          simp_all [Restart, sendSignal_run, outputText, initEvents, Event.isInit, lookups,
            signalsSent, redirectAttempts]

/-- C3: on the fallback path of `restart`, everything printed before the
initialization sequence is the one line
`<base name of the program> restart error: <err>. trying fresh start.` with
its newline, on standard output, where `<err>` is the pidfile read error when
the read failed and the error `Restart` returned when the read succeeded.  When
initialization then succeeds, that line is the whole output of `SimpleStart`
and control returns to the caller: the process is not terminated. -/
theorem restart_fallback_message (env : Env) (rest : List String) (e : GoError)
    (h : env.args = "restart" :: rest)
    (hfail : env.pidfileRead = .error e ∨
      ∃ pid, env.pidfileRead = .ok pid ∧ (Restart env pid).out = .ret (some e)) :
    outputText (beforeInit (SimpleStart env).trace) =
      filepathBase env.arg0 ++ " restart error: " ++ e.msg ++ ". trying fresh start.\n" ∧
    stdoutText (beforeInit (SimpleStart env).trace) =
      filepathBase env.arg0 ++ " restart error: " ++ e.msg ++ ". trying fresh start.\n" ∧
    ((prestart env env.enableDevRestarter env.stdout env.stderr).out = .ret none →
      (SimpleStart env).out = .ret () ∧
      outputText (SimpleStart env).trace =
        filepathBase env.arg0 ++ " restart error: " ++ e.msg ++ ". trying fresh start.\n") := by
  have ha : (restartAttempt env).out = .ret (some e) := by
    rw [restartAttempt_out]
    rcases hfail with hr | ⟨pid, hr, hs⟩
    · exact Or.inl ⟨e, hr, rfl⟩
    · exact Or.inr ⟨pid, hr, hs⟩
  obtain ⟨v, hp⟩ := prestart_returns env env.enableDevRestarter env.stdout env.stderr
  cases v with
  | none =>
    rw [SimpleStart_restart_fresh_ok env rest e h ha hp]
    rw [restartAttempt_run] at ha ⊢
    rw [prestart_run] at hp ⊢
    cases hr : env.pidfileRead with
    | error e1 =>
      cases hb : env.enableDevRestarter <;>
        cases h2 : env.redirectOutputs env.stdout env.stderr <;>
        simp only [hr, h2, header] at ha hp ⊢ <;>
        simp_all [outputText, stdoutText, beforeInit, Event.isInit, restartMessage]
    | ok pid =>
      cases h1 : env.findProcess pid <;>
        cases hb : env.enableDevRestarter <;>
        cases h2 : env.redirectOutputs env.stdout env.stderr <;>
        simp only [hr, h1, h2, header] at ha hp ⊢ <;>
        simp_all [outputText, stdoutText, beforeInit, Event.isInit, restartMessage]
  | some e2 =>
    rw [SimpleStart_restart_fresh_err env rest e e2 h ha hp]
    rw [restartAttempt_run] at ha ⊢
    rw [prestart_run] at hp ⊢
    cases hr : env.pidfileRead with
    | error e1 =>
      cases hb : env.enableDevRestarter <;>
        cases h2 : env.redirectOutputs env.stdout env.stderr <;>
        simp only [hr, h2, header] at ha hp ⊢ <;>
        simp_all [outputText, stdoutText, beforeInit, Event.isInit, restartMessage]
    | ok pid =>
      cases h1 : env.findProcess pid <;>
        cases hb : env.enableDevRestarter <;>
        cases h2 : env.redirectOutputs env.stdout env.stderr <;>
        simp only [hr, h1, h2, header] at ha hp ⊢ <;>
        simp_all [outputText, stdoutText, beforeInit, Event.isInit, restartMessage]

/-- C6, as amended: `SimpleStart` returns control to its caller exactly when
the initialization sequence succeeded and the command was `start`, or was
`restart` on its fallback path (the pidfile read failed, or `Restart` on the
pid read returned an error).  A command line that parses and names no command
exits with status 1; whenever there is no command (flag parsing may itself
have ended the process) and for every command other than `start` and
`restart` (so for `stop`, `kill` and any unknown command) the process is
terminated by `SimpleStart`; and for `restart` when the read and the restart
signal both succeed it exits with status 0. -/
theorem returns_only_after_initialization (env : Env) :
    ((SimpleStart env).out = .ret () ↔
      (prestart env env.enableDevRestarter env.stdout env.stderr).out = .ret none ∧
      ∃ rest, env.args = "start" :: rest ∨
        (env.args = "restart" :: rest ∧
          ((∃ e, env.pidfileRead = .error e) ∨
            ∃ pid e, env.pidfileRead = .ok pid ∧ (Restart env pid).out = .ret (some e)))) ∧
    (env.parsed = .ok [] → (SimpleStart env).out = .exit 1) ∧
    (env.args = [] → ∃ c, (SimpleStart env).out = .exit c) ∧
    (∀ cmd rest, env.args = cmd :: rest → cmd ≠ "start" → cmd ≠ "restart" →
      ∃ c, (SimpleStart env).out = .exit c) ∧
    (∀ rest pid, env.args = "restart" :: rest → env.pidfileRead = .ok pid →
      (Restart env pid).out = .ret none → (SimpleStart env).out = .exit 0) := by
  rcases SimpleStart_paths env with hh | ⟨err, hf⟩ | h0 | ⟨cmd, rest, h, hc⟩ | ⟨rest, h, hp⟩ |
    ⟨rest, e, h, hp⟩ | ⟨v, rest, e, hv, h, hr⟩ | ⟨v, sig, rest, n, hv, h, hr, hs⟩ |
    ⟨v, sig, rest, n, e, hv, h, hr, hs⟩ | ⟨rest, h, ha⟩ | ⟨rest, e, h, ha, hp⟩ |
    ⟨rest, e, e2, h, ha, hp⟩
  · rw [SimpleStart_help env hh]
    have hargs : env.args = [] := by simp [Env.args, hh]
    simp [hh, hargs]
  · rw [SimpleStart_parseFailed env err hf]
    have hargs : env.args = [] := by simp [Env.args, hf]
    simp [hf, hargs]
  · rw [SimpleStart_noCommand env h0]
    simp [h0, args_of_parsed h0]
  · rw [SimpleStart_unknown env cmd rest h hc]
    simp at hc
    simp [h, hc, args_cons_parsed h]
  · rw [SimpleStart_start_ok env rest h hp]
    simp [h, hp, args_cons_parsed h]
  · rw [SimpleStart_start_err env rest e h hp]
    simp [h, hp, args_cons_parsed h]
  · rw [SimpleStart_signal_readErr env v rest e hv h hr]
    have hq := args_cons_parsed h
    rcases hv with rfl | rfl <;> simp [h, hr, hq]
  · rw [SimpleStart_signal_ok env v sig rest n hv h hr hs]
    have hq := args_cons_parsed h
    rcases hv with ⟨rfl, rfl⟩ | ⟨rfl, rfl⟩ <;> simp [h, hr, hq]
  · rw [SimpleStart_signal_err env v sig rest n e hv h hr hs]
    have hq := args_cons_parsed h
    rcases hv with ⟨rfl, rfl⟩ | ⟨rfl, rfl⟩ <;> simp [h, hr, hq]
  · rw [SimpleStart_restart_ok env rest h ha]
    rw [restartAttempt_out] at ha
    rcases ha with ⟨e1, hr, he⟩ | ⟨pid, hr, hs⟩
    · simp at he
    · simp [h, hr, hs, args_cons_parsed h]
  · rw [SimpleStart_restart_fresh_ok env rest e h ha hp]
    rw [restartAttempt_out] at ha
    rcases ha with ⟨e1, hr, _⟩ | ⟨pid, hr, hs⟩
    · simp [h, hr, hp, args_cons_parsed h]
    · simp [h, hr, hs, hp, args_cons_parsed h]
  · rw [SimpleStart_restart_fresh_err env rest e e2 h ha hp]
    rw [restartAttempt_out] at ha
    rcases ha with ⟨e1, hr, _⟩ | ⟨pid, hr, hs⟩
    · simp [h, hr, hp, args_cons_parsed h]
    · simp [h, hr, hs, hp, args_cons_parsed h]

/-- C7, as amended: when the service is not running (the pidfile read fails
with error `e`, or the read succeeds and signalling the recorded pid fails
with error `e`), `stop` and `kill` exit with status 2 and their whole output is
the text of `e`; `restart` runs the initialization sequence exactly once as a
fresh start, returns to its caller when that succeeds, and exits with status 2
with the initialization error on the error stream when it fails. -/
theorem not_running_stop_kill_fail_restart_starts (env : Env) (v : String) (sig : Signal)
    (rest : List String) (e : GoError)
    (hv : (v = "stop" ∧ sig = .SIGTERM) ∨ (v = "kill" ∧ sig = .SIGKILL) ∨
      (v = "restart" ∧ sig = .SIGUSR2))
    (h : env.args = v :: rest)
    (hdown : env.pidfileRead = .error e ∨
      ∃ pid, env.pidfileRead = .ok pid ∧ (sendSignal env pid sig).out = .ret (some e)) :
    (v ≠ "restart" →
      (SimpleStart env).out = .exit 2 ∧ outputText (SimpleStart env).trace = e.msg) ∧
    (v = "restart" →
      redirectAttempts (SimpleStart env).trace = 1 ∧
      initEvents (SimpleStart env).trace =
        (prestart env env.enableDevRestarter env.stdout env.stderr).trace ∧
      ((prestart env env.enableDevRestarter env.stdout env.stderr).out = .ret none →
        (SimpleStart env).out = .ret ()) ∧
      (∀ e2, (prestart env env.enableDevRestarter env.stdout env.stderr).out = .ret (some e2) →
        (SimpleStart env).out = .exit 2 ∧ stderrText (SimpleStart env).trace = e2.msg)) := by
  have hsk : ∀ s, (v = "stop" ∧ s = Signal.SIGTERM) ∨ (v = "kill" ∧ s = Signal.SIGKILL) →
      (env.pidfileRead = .error e ∨
        ∃ pid, env.pidfileRead = .ok pid ∧ (sendSignal env pid s).out = .ret (some e)) →
      (SimpleStart env).out = .exit 2 ∧ outputText (SimpleStart env).trace = e.msg := by
    intro s hs hd
    rcases hd with hr | ⟨pid, hr, hsend⟩
    · have hv2 : v = "stop" ∨ v = "kill" := by
        rcases hs with ⟨c, _⟩ | ⟨c, _⟩
        · exact Or.inl c
        · exact Or.inr c
      rw [SimpleStart_signal_readErr env v rest e hv2 h hr]
      simp [header, outputText]
    · rw [SimpleStart_signal_err env v s rest pid e hs h hr hsend]
      rw [sendSignal_run] at hsend ⊢
      cases h1 : env.findProcess pid <;> simp only [h1, header] at hsend ⊢ <;>
        simp [outputText]
  rcases hv with ⟨hv1, hs1⟩ | ⟨hv1, hs1⟩ | ⟨hv1, hs1⟩
  · refine ⟨fun _ => hsk sig (Or.inl ⟨hv1, hs1⟩) hdown, fun c => ?_⟩
    rw [hv1] at c
    exact absurd c (by decide)
  · refine ⟨fun _ => hsk sig (Or.inr ⟨hv1, hs1⟩) hdown, fun c => ?_⟩
    rw [hv1] at c
    exact absurd c (by decide)
  · subst hv1
    subst hs1
    refine ⟨fun c => absurd rfl c, fun _ => ?_⟩
    have ha : (restartAttempt env).out = .ret (some e) := by
      rw [restartAttempt_out]
      rcases hdown with hr | ⟨pid, hr, hs⟩
      · exact Or.inl ⟨e, hr, rfl⟩
      · exact Or.inr ⟨pid, hr, hs⟩
    obtain ⟨r, hp⟩ := prestart_returns env env.enableDevRestarter env.stdout env.stderr
    cases r with
    | none =>
      rw [SimpleStart_restart_fresh_ok env rest e h ha hp]
      rw [restartAttempt_run] at ha ⊢
      rw [prestart_run] at hp ⊢
      cases hr : env.pidfileRead with
      | error e1 =>
        cases hb : env.enableDevRestarter <;>
          cases h2 : env.redirectOutputs env.stdout env.stderr <;>
          simp only [hr, h2, header] at ha hp ⊢ <;>
          simp_all [redirectAttempts, initEvents, Event.isInit, stderrText]
      | ok pid =>
        cases h1 : env.findProcess pid <;>
          cases hb : env.enableDevRestarter <;>
          cases h2 : env.redirectOutputs env.stdout env.stderr <;>
          simp only [hr, h1, h2, header] at ha hp ⊢ <;>
          simp_all [redirectAttempts, initEvents, Event.isInit, stderrText]
    | some e2 =>
      rw [SimpleStart_restart_fresh_err env rest e e2 h ha hp]
      rw [restartAttempt_run] at ha ⊢
      rw [prestart_run] at hp ⊢
      cases hr : env.pidfileRead with
      | error e1 =>
        cases hb : env.enableDevRestarter <;>
          cases h2 : env.redirectOutputs env.stdout env.stderr <;>
          simp only [hr, h2, header] at ha hp ⊢ <;>
          simp_all [redirectAttempts, initEvents, Event.isInit, stderrText]
      | ok pid =>
        cases h1 : env.findProcess pid <;>
          cases hb : env.enableDevRestarter <;>
          cases h2 : env.redirectOutputs env.stdout env.stderr <;>
          simp only [hr, h1, h2, header] at ha hp ⊢ <;>
          simp_all [redirectAttempts, initEvents, Event.isInit, stderrText]

/-- What an invocation that ends in a usage error leaves behind: nothing on
standard output, no pidfile read, no lookup, no signal, no initialization. -/
theorem usage_obs (env : Env) :
    stderrText (usage env).trace = usageText env ∧
    stdoutText (usage env).trace = "" ∧
    pidfileReads (usage env).trace = 0 ∧
    lookups (usage env).trace = [] ∧
    signalsSent (usage env).trace = [] ∧
    initEvents (usage env).trace = [] := by
  obtain ⟨h1, _, h3, h4, h5, h6, h7, _⟩ := flagWrites_obs env.flags
  have hfl : env.flags.map flagLine = env.flags.map fun f =>
      "  -" ++ f.name ++ "=" ++ f.value ++ ": " ++ f.usage ++ "\n" := rfl
  rw [usage_run]
  simp only [stderrText_append, stdoutText_append, pidfileReads_append, lookups_append,
    signalsSent_append, initEvents_append, h1, h3, h4, h5, h6, h7, hfl]
  simp [stderrText, stdoutText, pidfileReads, lookups, signalsSent, initEvents, Event.isInit,
    usageText, usageLine]

/-- How each path through `SimpleStart` ends. -/
theorem SimpleStart_out_cases (env : Env) :
    ((SimpleStart env).out = .exit 1 ∧
      (env.parsed = .ok [] ∨
        ∃ cmd rest, env.args = cmd :: rest ∧ cmd ∉ ["start", "stop", "kill", "restart"])) ∨
    ((SimpleStart env).out = .ret () ∧
      ∃ rest, env.args = "start" :: rest ∨ env.args = "restart" :: rest) ∨
    ((SimpleStart env).out = .exit 2 ∧
      ((∃ err, env.parsed = .failed err) ∨
        ∃ cmd rest, env.args = cmd :: rest ∧ cmd ∈ ["start", "stop", "kill", "restart"])) ∨
    ((SimpleStart env).out = .exit 0 ∧
      (env.parsed = .help ∨
        ∃ v sig rest n,
          ((v = "stop" ∧ sig = Signal.SIGTERM) ∨ (v = "kill" ∧ sig = Signal.SIGKILL) ∨
            (v = "restart" ∧ sig = Signal.SIGUSR2)) ∧
          env.args = v :: rest ∧ env.pidfileRead = .ok n ∧
          env.findProcess n = none ∧ env.signal n sig = none ∧
          signalsSent (SimpleStart env).trace = [(n, sig)])) := by
  rcases SimpleStart_paths env with hh | ⟨err, hf⟩ | h0 | ⟨cmd, rest, h, hc⟩ | ⟨rest, h, hp⟩ |
    ⟨rest, e, h, hp⟩ | ⟨v, rest, e, hv, h, hr⟩ | ⟨v, sig, rest, n, hv, h, hr, hs⟩ |
    ⟨v, sig, rest, n, e, hv, h, hr, hs⟩ | ⟨rest, h, ha⟩ | ⟨rest, e, h, ha, hp⟩ |
    ⟨rest, e, e2, h, ha, hp⟩
  · exact Or.inr (Or.inr (Or.inr ⟨by rw [SimpleStart_help env hh], Or.inl hh⟩))
  · exact Or.inr (Or.inr (Or.inl ⟨by rw [SimpleStart_parseFailed env err hf],
      Or.inl ⟨err, hf⟩⟩))
  · exact Or.inl ⟨by rw [SimpleStart_noCommand env h0], Or.inl h0⟩
  · exact Or.inl ⟨by rw [SimpleStart_unknown env cmd rest h hc], Or.inr ⟨cmd, rest, h, hc⟩⟩
  · exact Or.inr (Or.inl ⟨by rw [SimpleStart_start_ok env rest h hp], rest, Or.inl h⟩)
  · exact Or.inr (Or.inr (Or.inl ⟨by rw [SimpleStart_start_err env rest e h hp],
      Or.inr ⟨"start", rest, h, by simp⟩⟩))
  · refine Or.inr (Or.inr (Or.inl ⟨by rw [SimpleStart_signal_readErr env v rest e hv h hr],
      Or.inr ⟨v, rest, h, ?_⟩⟩))
    rcases hv with rfl | rfl <;> simp
  · refine Or.inr (Or.inr (Or.inr ⟨by rw [SimpleStart_signal_ok env v sig rest n hv h hr hs],
      Or.inr ⟨v, sig, rest, n, ?_, h, hr, ?_⟩⟩))
    · rcases hv with c | c
      · exact Or.inl c
      · exact Or.inr (Or.inl c)
    · rw [SimpleStart_signal_ok env v sig rest n hv h hr hs]
      rw [sendSignal_run] at hs ⊢
      cases h1 : env.findProcess n <;> simp only [h1, header] at hs ⊢ <;>
        simp_all [signalsSent]
  · refine Or.inr (Or.inr (Or.inl ⟨by rw [SimpleStart_signal_err env v sig rest n e hv h hr hs],
      Or.inr ⟨v, rest, h, ?_⟩⟩))
    rcases hv with ⟨rfl, _⟩ | ⟨rfl, _⟩ <;> simp
  · rw [SimpleStart_restart_ok env rest h ha]
    rw [restartAttempt_run] at ha ⊢
    cases hr : env.pidfileRead with
    | error e => simp [hr] at ha
    | ok pid =>
      refine Or.inr (Or.inr (Or.inr ⟨rfl, Or.inr ⟨"restart", Signal.SIGUSR2, rest, pid,
        Or.inr (Or.inr ⟨rfl, rfl⟩), h, rfl, ?_⟩⟩))
      cases h1 : env.findProcess pid <;> simp only [hr, h1, header] at ha ⊢ <;>
        simp_all [signalsSent]
  · exact Or.inr (Or.inl ⟨by rw [SimpleStart_restart_fresh_ok env rest e h ha hp],
      rest, Or.inr h⟩)
  · exact Or.inr (Or.inr (Or.inl ⟨by rw [SimpleStart_restart_fresh_err env rest e e2 h ha hp],
      Or.inr ⟨"restart", rest, h, by simp⟩⟩))

/-- C5, as amended: when `flag.Parse` accepts the command line and there is no
positional argument, or the first one is not `start`, `stop`, `kill` or
`restart`, the process exits with status 1 after writing the usage text to the
error stream, without reading the pidfile, looking up a process, sending a
signal or running initialization; status 1 is produced in no other case.
When `flag.Parse` rejects the command line the process exits with status 2
after the parse error and the usage text, and on a request for help with
status 0 after the usage text, in both cases without pidfile read, lookup,
signal or initialization.  Every failure propagated from initialization, from
the pidfile read or from signalling exits with status 2, and status 2 is
produced only by a rejected command line or under one of the four commands.
Status 0 is produced only on a request for help or when the command was
`stop`, `kill` or `restart` and its signal was delivered, to the pid read from
the pidfile.  No other status is produced. -/
theorem exit_statuses (env : Env) :
    (env.parsed = .ok [] →
      (SimpleStart env).out = .exit 1 ∧
      stderrText (SimpleStart env).trace = "no command was specified\n" ++ usageText env ∧
      stdoutText (SimpleStart env).trace = "" ∧
      pidfileReads (SimpleStart env).trace = 0 ∧
      lookups (SimpleStart env).trace = [] ∧
      signalsSent (SimpleStart env).trace = [] ∧
      initEvents (SimpleStart env).trace = []) ∧
    (∀ cmd rest, env.args = cmd :: rest → cmd ∉ ["start", "stop", "kill", "restart"] →
      (SimpleStart env).out = .exit 1 ∧
      stderrText (SimpleStart env).trace = "unknown command: " ++ cmd ++ "\n" ++ usageText env ∧
      stdoutText (SimpleStart env).trace = "" ∧
      pidfileReads (SimpleStart env).trace = 0 ∧
      lookups (SimpleStart env).trace = [] ∧
      signalsSent (SimpleStart env).trace = [] ∧
      initEvents (SimpleStart env).trace = []) ∧
    ((SimpleStart env).out = .exit 1 ↔
      env.parsed = .ok [] ∨
      ∃ cmd rest, env.args = cmd :: rest ∧ cmd ∉ ["start", "stop", "kill", "restart"]) ∧
    (∀ err, env.parsed = .failed err →
      (SimpleStart env).out = .exit 2 ∧
      stderrText (SimpleStart env).trace = err.msg ++ "\n" ++ usageText env ∧
      stdoutText (SimpleStart env).trace = "" ∧
      pidfileReads (SimpleStart env).trace = 0 ∧
      lookups (SimpleStart env).trace = [] ∧
      signalsSent (SimpleStart env).trace = [] ∧
      initEvents (SimpleStart env).trace = []) ∧
    (env.parsed = .help →
      (SimpleStart env).out = .exit 0 ∧
      stderrText (SimpleStart env).trace = usageText env ∧
      stdoutText (SimpleStart env).trace = "" ∧
      pidfileReads (SimpleStart env).trace = 0 ∧
      lookups (SimpleStart env).trace = [] ∧
      signalsSent (SimpleStart env).trace = [] ∧
      initEvents (SimpleStart env).trace = []) ∧
    (∀ rest e, env.args = "start" :: rest →
      (prestart env env.enableDevRestarter env.stdout env.stderr).out = .ret (some e) →
      (SimpleStart env).out = .exit 2) ∧
    (∀ v rest e, env.args = v :: rest → v = "stop" ∨ v = "kill" →
      env.pidfileRead = .error e → (SimpleStart env).out = .exit 2) ∧
    (∀ rest n e, env.args = "stop" :: rest → env.pidfileRead = .ok n →
      (Stop env n).out = .ret (some e) → (SimpleStart env).out = .exit 2) ∧
    (∀ rest n e, env.args = "kill" :: rest → env.pidfileRead = .ok n →
      (Kill env n).out = .ret (some e) → (SimpleStart env).out = .exit 2) ∧
    (∀ rest e e2, env.args = "restart" :: rest →
      (env.pidfileRead = .error e ∨
        ∃ pid, env.pidfileRead = .ok pid ∧ (Restart env pid).out = .ret (some e)) →
      (prestart env env.enableDevRestarter env.stdout env.stderr).out = .ret (some e2) →
      (SimpleStart env).out = .exit 2) ∧
    ((SimpleStart env).out = .exit 2 →
      (∃ err, env.parsed = .failed err) ∨
      ∃ cmd rest, env.args = cmd :: rest ∧ cmd ∈ ["start", "stop", "kill", "restart"]) ∧
    ((SimpleStart env).out = .exit 0 →
      env.parsed = .help ∨
      ∃ v sig rest n,
        ((v = "stop" ∧ sig = Signal.SIGTERM) ∨ (v = "kill" ∧ sig = Signal.SIGKILL) ∨
          (v = "restart" ∧ sig = Signal.SIGUSR2)) ∧
        env.args = v :: rest ∧ env.pidfileRead = .ok n ∧
        env.findProcess n = none ∧ env.signal n sig = none ∧
        signalsSent (SimpleStart env).trace = [(n, sig)]) ∧
    (∀ c, (SimpleStart env).out = .exit c → c = 0 ∨ c = 1 ∨ c = 2) := by
  obtain ⟨u1, u2, u3, u4, u5, u6⟩ := usage_obs env
  refine ⟨?_, ?_, ?_, ?_, ?_, ?_, ?_, ?_, ?_, ?_, ?_, ?_, ?_⟩
  · intro h
    rw [SimpleStart_noCommand env h]
    simp only [stderrText_append, stdoutText_append, pidfileReads_append, lookups_append,
      signalsSent_append, initEvents_append, u1, u2, u3, u4, u5, u6]
    simp [stderrText, stdoutText, pidfileReads, lookups, signalsSent, initEvents,
      Event.isInit]
  · intro cmd rest h hc
    rw [SimpleStart_unknown env cmd rest h hc]
    simp only [stderrText_append, stdoutText_append, pidfileReads_append, lookups_append,
      signalsSent_append, initEvents_append, u1, u2, u3, u4, u5, u6, header]
    simp [stderrText, stdoutText, pidfileReads, lookups, signalsSent, initEvents,
      Event.isInit, String.append_assoc]
  · constructor
    · intro hout
      rcases SimpleStart_out_cases env with ⟨_, hu⟩ | ⟨ho, _⟩ | ⟨ho, _⟩ | ⟨ho, _⟩
      · exact hu
      · rw [ho] at hout; cases hout
      · rw [ho] at hout; cases hout
      · rw [ho] at hout; cases hout
    · rintro (h | ⟨cmd, rest, h, hc⟩)
      · rw [SimpleStart_noCommand env h]
      · rw [SimpleStart_unknown env cmd rest h hc]
  · intro err h
    rw [SimpleStart_parseFailed env err h]
    simp only [stderrText_append, stdoutText_append, pidfileReads_append, lookups_append,
      signalsSent_append, initEvents_append, u1, u2, u3, u4, u5, u6]
    simp [stderrText, stdoutText, pidfileReads, lookups, signalsSent, initEvents,
      Event.isInit, String.append_assoc]
  · intro h
    rw [SimpleStart_help env h]
    simp only [stderrText_append, stdoutText_append, pidfileReads_append, lookups_append,
      signalsSent_append, initEvents_append, u1, u2, u3, u4, u5, u6]
    simp [stderrText, stdoutText, pidfileReads, lookups, signalsSent, initEvents,
      Event.isInit]
  · intro rest e h hp
    rw [SimpleStart_start_err env rest e h hp]
  · intro v rest e h hv hr
    rw [SimpleStart_signal_readErr env v rest e hv h hr]
  · intro rest n e h hr hs
    rw [SimpleStart_signal_err env "stop" .SIGTERM rest n e (Or.inl ⟨rfl, rfl⟩) h hr hs]
  · intro rest n e h hr hs
    rw [SimpleStart_signal_err env "kill" .SIGKILL rest n e (Or.inr ⟨rfl, rfl⟩) h hr hs]
  · intro rest e e2 h hfail hp
    have ha : (restartAttempt env).out = .ret (some e) := by
      rw [restartAttempt_out]
      rcases hfail with hr | ⟨pid, hr, hs⟩
      · exact Or.inl ⟨e, hr, rfl⟩
      · exact Or.inr ⟨pid, hr, hs⟩
    rw [SimpleStart_restart_fresh_err env rest e e2 h ha hp]
  · intro hout
    rcases SimpleStart_out_cases env with ⟨ho, _⟩ | ⟨ho, _⟩ | ⟨_, hk⟩ | ⟨ho, _⟩
    · rw [ho] at hout; cases hout
    · rw [ho] at hout; cases hout
    · exact hk
    · rw [ho] at hout; cases hout
  · intro hout
    rcases SimpleStart_out_cases env with ⟨ho, _⟩ | ⟨ho, _⟩ | ⟨ho, _⟩ | ⟨_, hk⟩
    · rw [ho] at hout; cases hout
    · rw [ho] at hout; cases hout
    · rw [ho] at hout; cases hout
    · exact hk
  · intro c hout
    rcases SimpleStart_out_cases env with ⟨ho, _⟩ | ⟨ho, _⟩ | ⟨ho, _⟩ | ⟨ho, _⟩ <;>
      rw [ho] at hout <;> cases hout <;> simp

/-! ## The theorems at sample environments -/

/-- Instance of C1: `restart` against a running server sends SIGUSR2 to the pid read. -/
theorem restart_falls_back_witness :
    envRestartRunning.args = ["restart"] ∧
    envRestartRunning.pidfileRead = .ok 4242 ∧
    signalsSent (SimpleStart envRestartRunning).trace = [(4242, Signal.SIGUSR2)] ∧
    ((SimpleStart envRestartRunning).out = .exit 0 ↔
      ∃ pid, envRestartRunning.pidfileRead = .ok pid ∧
        (Restart envRestartRunning pid).out = .ret none) :=
  ⟨rfl, rfl,
    (restart_falls_back_unless_both_succeed envRestartRunning [] rfl).2.2.2.2 4242 rfl rfl,
    (restart_falls_back_unless_both_succeed envRestartRunning [] rfl).2.1⟩

/-- Instance of C2: `stop` with no pidfile prints the read error and exits with status 2. -/
theorem stop_kill_read_failure_witness :
    envStopNoPidfile.args = ["stop"] ∧
    envStopNoPidfile.pidfileRead = .error noPidfile ∧
    (SimpleStart envStopNoPidfile).out = .exit 2 ∧
    outputText (SimpleStart envStopNoPidfile).trace =
      "open /var/run/server.pid: no such file or directory" :=
  ⟨rfl, rfl,
    (stop_kill_read_failure envStopNoPidfile "stop" [] noPidfile (Or.inl rfl) rfl rfl).1,
    (stop_kill_read_failure envStopNoPidfile "stop" [] noPidfile (Or.inl rfl) rfl rfl).2.1⟩

/-- Instance of C3: the line `restart` prints when there is no pidfile. -/
theorem restart_fallback_message_witness :
    envRestartNoPidfile.args = ["restart"] ∧
    envRestartNoPidfile.pidfileRead = .error noPidfile ∧
    outputText (beforeInit (SimpleStart envRestartNoPidfile).trace) =
      "server restart error: open /var/run/server.pid: no such file or directory. " ++
        "trying fresh start.\n" :=
  ⟨rfl, rfl,
    (restart_fallback_message envRestartNoPidfile [] noPidfile rfl (Or.inl rfl)).1⟩

/-- Instance of C4: `stop` against a running server sends one SIGTERM, to the
pid read, and exits with status 0. -/
theorem stop_kill_sends_one_signal_witness :
    UnixFindProcess envStopRunning ∧
    envStopRunning.args = ["stop"] ∧
    envStopRunning.pidfileRead = .ok 4242 ∧
    signalsSent (SimpleStart envStopRunning).trace = [(4242, Signal.SIGTERM)] ∧
    (SimpleStart envStopRunning).out = .exit 0 :=
  ⟨fun _ => rfl, rfl, rfl,
    (stop_kill_sends_one_signal envStopRunning "stop" .SIGTERM [] 4242 (fun _ => rfl)
      (Or.inl ⟨rfl, rfl⟩) rfl rfl).1,
    ((stop_kill_sends_one_signal envStopRunning "stop" .SIGTERM [] 4242 (fun _ => rfl)
      (Or.inl ⟨rfl, rfl⟩) rfl rfl).2.2.2.2.1 rfl).1⟩

/-- C5, as stated, fails: `server -bogus` has no positional argument, yet
`flag.Parse` ends the process with status 2, not 1; and `server -h` exits with
status 0 though no signal was sent. -/
theorem flag_parse_exits_before_dispatch :
    envBadFlag.args = [] ∧
    (SimpleStart envBadFlag).out = .exit 2 ∧
    (SimpleStart envBadFlag).out ≠ .exit 1 ∧
    envHelp.args = [] ∧
    (SimpleStart envHelp).out = .exit 0 ∧
    signalsSent (SimpleStart envHelp).trace = [] :=
  ⟨rfl, by decide, by decide, rfl, by decide, by decide⟩

/-- Instance of C5 as amended: no command on the command line writes the
notice and the usage text to the error stream and exits with status 1. -/
theorem exit_statuses_witness :
    envNoCommand.parsed = .ok [] ∧
    (SimpleStart envNoCommand).out = .exit 1 ∧
    stderrText (SimpleStart envNoCommand).trace =
      "no command was specified\n" ++
      "usage: server [options...] \x7bstart|stop|kill|restart\x7d\n" ++
      "  -devrestarter=false: if true the devrestarter will be enabled\n" ++
      "  -gomaxprocs=4: gomaxprocs\n" ++
      "  -stderr=: file path to redirect stderr to\n" ++
      "  -stdout=: file path to redirect stdout to\n" ∧
    outputText (SimpleStart envNoCommand).trace =
      "no command was specified\n" ++
      "usage: server [options...] \x7bstart|stop|kill|restart\x7d\n" ++
      "  -devrestarter=false: if true the devrestarter will be enabled\n" ++
      "  -gomaxprocs=4: gomaxprocs\n" ++
      "  -stderr=: file path to redirect stderr to\n" ++
      "  -stdout=: file path to redirect stdout to\n" :=
  ⟨rfl, ((exit_statuses envNoCommand).1 rfl).1, ((exit_statuses envNoCommand).1 rfl).2.1,
    rfl⟩

/-- C6, as stated, fails: `restart` with no pidfile falls back to a fresh
start and, initialization succeeding, `SimpleStart` returns to its caller. -/
theorem restart_without_pidfile_returns :
    envRestartNoPidfile.args = ["restart"] ∧
    (SimpleStart envRestartNoPidfile).out = .ret () ∧
    ¬ ∃ c, (SimpleStart envRestartNoPidfile).out = .exit c :=
  ⟨rfl, by decide, by
    intro ⟨c, hc⟩
    have h : (SimpleStart envRestartNoPidfile).out = .ret () := by decide
    rw [h] at hc
    cases hc⟩

/-- Instance of C6 as amended: `stop` terminates the process itself. -/
theorem returns_only_after_initialization_witness :
    envStopRunning.args = ["stop"] ∧ ∃ c, (SimpleStart envStopRunning).out = .exit c :=
  ⟨rfl, (returns_only_after_initialization envStopRunning).2.2.2.1 "stop" [] rfl
    (by decide) (by decide)⟩

/-- C7, as stated, fails: `restart` with no pidfile falls back to a fresh
start, the outputs cannot be redirected, and the process exits with status 2. -/
theorem restart_not_running_can_exit_nonzero :
    envRestartInitFails.args = ["restart"] ∧
    envRestartInitFails.pidfileRead = .error noPidfile ∧
    (SimpleStart envRestartInitFails).out = .exit 2 ∧
    (SimpleStart envRestartInitFails).out ≠ .ret () :=
  ⟨rfl, rfl, by decide, by decide⟩

/-- Instance of C7 as amended: `restart` with a stale pidfile starts afresh and returns. -/
theorem not_running_witness :
    envRestartStale.args = ["restart"] ∧
    envRestartStale.pidfileRead = .ok 4242 ∧
    (sendSignal envRestartStale 4242 .SIGUSR2).out = .ret (some processGone) ∧
    redirectAttempts (SimpleStart envRestartStale).trace = 1 ∧
    (SimpleStart envRestartStale).out = .ret () :=
  ⟨rfl, rfl, rfl,
    ((not_running_stop_kill_fail_restart_starts envRestartStale "restart" .SIGUSR2 []
      processGone (Or.inr (Or.inr ⟨rfl, rfl⟩)) rfl (Or.inr ⟨4242, rfl, rfl⟩)).2 rfl).1,
    ((not_running_stop_kill_fail_restart_starts envRestartStale "restart" .SIGUSR2 []
      processGone (Or.inr (Or.inr ⟨rfl, rfl⟩)) rfl (Or.inr ⟨4242, rfl, rfl⟩)).2 rfl).2.2.1
      rfl⟩

/-- Instance of C8: `Kill` delivers one SIGKILL to the process and returns nil. -/
theorem processControl_witness :
    sampleEnv.findProcess 4242 = none ∧
    signalsSent (Kill sampleEnv 4242).trace = [(4242, Signal.SIGKILL)] ∧
    (Kill sampleEnv 4242).out = .ret none :=
  ⟨rfl,
    ((processControl_sends_one_signal sampleEnv 4242).2 Kill .SIGKILL (by simp)).2.1 rfl,
    ((processControl_sends_one_signal sampleEnv 4242).2 Kill .SIGKILL
      (by simp)).2.2.2.1.mpr ⟨rfl, rfl⟩⟩

/-- Instance of C9: a successful `start` prints nothing and returns to the caller. -/
theorem start_witness :
    sampleEnv.args = ["start"] ∧
    (SimpleStart sampleEnv).out = .ret () ∧ outputText (SimpleStart sampleEnv).trace = "" :=
  ⟨rfl,
    ((start_runs_initialization_once sampleEnv [] rfl).2.2.2.2.2.2.2 rfl).1,
    ((start_runs_initialization_once sampleEnv [] rfl).2.2.2.2.2.2.2 rfl).2.1⟩

/-- Instance of C10: when redirection fails the pidfile is not written and the error is returned. -/
theorem prestart_witness :
    envStartInitFails.redirectOutputs "/nonexistent/server.out" "" =
      some ⟨"open /nonexistent/server.out: no such file or directory"⟩ ∧
    Event.pidfileWrite ∉ (prestart envStartInitFails false "/nonexistent/server.out" "").trace ∧
    (prestart envStartInitFails false "/nonexistent/server.out" "").out =
      .ret (some ⟨"open /nonexistent/server.out: no such file or directory"⟩) :=
  ⟨rfl,
    fun hmem => absurd
      ((prestart_sequence envStartInitFails false "/nonexistent/server.out" "").2.2.2.2.2.1.mp
        hmem) (by simp [envStartInitFails]),
    (prestart_sequence envStartInitFails false "/nonexistent/server.out"
      "").2.2.2.2.2.2.2.1 _ rfl⟩

end Cmdctrl
